import Mathlib

/-
Verification of the model comparison and selection engine of the
tcc_dsa_usp repository (inventory forecasting pipeline).

The Python sources are embedded shallowly over rationals:
  * series values are rationals (the source works on pandas float series;
    no claim here depends on floating-point rounding),
  * NaN-able scalars are represented as Option rationals, with the source
    convention that every comparison against NaN is false,
  * the external model-fitting libraries (pmdarima auto_arima and
    statsmodels ExponentialSmoothing) are represented by an explicit
    oracle of optional forecast functions: a fit that raised corresponds
    to none, a successful fit corresponds to some f where f i is the
    forecast for step i (the real predict call always returns exactly
    n_periods values, which the functional representation preserves).
-/

/- ===== MetricCalculator: comparacao_modelos_previsao.calcular_mape ===== -/

/-- Embeds calcular_mape from src/modelos/comparacao_modelos_previsao.py.
The numpy mask selects the indices whose ground-truth value is non-zero;
if no index survives the function returns NaN, embedded as none. -/
def calcular_mape (y_real y_previsto : List ℚ) : Option ℚ :=
  let pares := y_real.zip y_previsto
  let mask := pares.filter (fun p => p.1 ≠ 0)
  if mask.length = 0 then none
  else some (((mask.map (fun p => |(p.1 - p.2) / p.1|)).sum / (mask.length : ℚ)) * 100)

/-- Stated from the spec sentence: MAPE is the mean of the quantities
abs (actual - predicted) / abs actual times 100, computed only over the
indices where actual is non-zero; NaN (none) when no such index exists.
This definition follows the wording of the spec (index based) and is
compared against the code-derived calcular_mape. -/
def mape_spec (y_real y_previsto : List ℚ) : Option ℚ :=
  let idxs := (List.range y_real.length).filter (fun i => y_real.getD i 0 ≠ 0)
  if idxs = [] then none
  else some ((idxs.map
    (fun i => |y_real.getD i 0 - y_previsto.getD i 0| / |y_real.getD i 0| * 100)).sum
      / (idxs.length : ℚ))

/-- Per-model evaluation record.  The source stores mae, rmse and mape in a
dict; rmse is the square root of the mean squared error, which is irrational
in general, so the record keeps the mean squared error (mse) instead; no
stated property mentions rmse, and the square root is strictly monotone so
any ordering statement would transfer. -/
structure Metricas where
  modelo : String
  mae : ℚ
  mse : ℚ
  mape : Option ℚ
deriving DecidableEq

/-- Embeds avaliar_modelo: mae via sklearn mean_absolute_error, mse the
squared counterpart, mape via calcular_mape. -/
def avaliar_modelo (y_real y_previsto : List ℚ) (nome_modelo : String) : Metricas :=
  let pares := y_real.zip y_previsto
  { modelo := nome_modelo
    mae := (pares.map (fun p => |p.1 - p.2|)).sum / (pares.length : ℚ)
    mse := (pares.map (fun p => (p.1 - p.2) ^ 2)).sum / (pares.length : ℚ)
    mape := calcular_mape y_real y_previsto }

/- ===== TrainTestSplit: dividir_serie_temporal ===== -/

/-- Embeds dividir_serie_temporal: n_treino = int(n * proporcao_treino)
(python int truncates toward zero, which on the non-negative product equals
the floor), train is the prefix, test the remaining suffix. -/
def dividir_serie_temporal (serie : List ℚ) (proporcao_treino : ℚ) : List ℚ × List ℚ :=
  let n_treino := (⌊(serie.length : ℚ) * proporcao_treino⌋).toNat
  (serie.take n_treino, serie.drop n_treino)

/- ===== small numeric helpers shared by the embedded modules ===== -/

/-- Mean of a list of rationals (numpy mean); for the empty list the
rational division by zero yields 0 where numpy yields NaN — every use
below is on a non-empty list or is guarded by an explicit hypothesis. -/
def media (l : List ℚ) : ℚ := l.sum / (l.length : ℚ)

/-- Minimum of a list (python min); 0 on the empty list, on which the
source never calls it. -/
def listMin : List ℚ → ℚ
  | [] => 0
  | x :: xs => xs.foldl min x

/-- Maximum of a list (python max); 0 on the empty list. -/
def listMax : List ℚ → ℚ
  | [] => 0
  | x :: xs => xs.foldl max x

/-- Sample variance with ddof = 1 (the pandas std default squared). -/
def variancia_amostral (l : List ℚ) : ℚ :=
  (l.map (fun x => (x - media l) ^ 2)).sum / ((l.length : ℚ) - 1)

/- ===== ModelComparisonEngine: comparar_modelos ===== -/

/-- Outcome of the external parameter searches for one comparison run.
Each field is none when the corresponding fit (or its predict call)
raised, and some f when it succeeded, f i being the raw forecast for
step i before the non-negativity clamp. -/
structure FitOracle where
  sarima_anual : Option (Nat → ℚ)
  sarima_mensal : Option (Nat → ℚ)
  arima : Option (Nat → ℚ)
  exponencial : Option (Nat → ℚ)

/-- The resultados dict built by comparar_modelos: modelos holds the dict
keys in insertion order, previsoes the key/forecast pairs, metricas the
evaluation records. -/
structure Resultados where
  sku : String
  modelos : List String
  previsoes : List (String × List ℚ)
  metricas : List Metricas
  serie_treino : List ℚ
  serie_teste : List ℚ
  teste_constante : Bool
  usar_sarima_anual : Bool

/-- The effective test segment: the test suffix truncated to the
requested forecast horizon (serie_teste_previsao in the source). -/
def serie_teste_previsao (serie : List ℚ) (horizonte_previsao : ℕ) (proporcao_treino : ℚ) :
    List ℚ :=
  let serie_teste := (dividir_serie_temporal serie proporcao_treino).2
  serie_teste.take (min horizonte_previsao serie_teste.length)

/-- Embeds the degeneracy test: teste_constante = std < 0.01 or range < 0.01.
The source uses the pandas sample std (ddof 1); std and variance are both
non-negative so std < 0.01 holds exactly when the sample variance is below
0.0001, and for fewer than two observations the pandas std is NaN, on which
the comparison is false — hence the explicit length guards (min and max of
an empty series are NaN as well). -/
def teste_constante_flag (teste : List ℚ) : Bool :=
  decide (2 ≤ teste.length ∧ variancia_amostral teste < (1 : ℚ) / 10000)
    || decide (teste ≠ [] ∧ listMax teste - listMin teste < (1 : ℚ) / 100)

/-- Embeds modelo_media_movel: keeps the last janela training values
(pandas tail). -/
def modelo_media_movel (serie_treino : List ℚ) (janela : ℕ) : List ℚ :=
  serie_treino.drop (serie_treino.length - janela)

/-- Embeds prever_media_movel: the mean of the retained values repeated
for the whole horizon (np.full). -/
def prever_media_movel (ultimos_valores : List ℚ) (n_periodos : ℕ) : List ℚ :=
  List.replicate n_periodos (media ultimos_valores)

/-- np.maximum(prev, 0): clamp every forecast value to be non-negative. -/
def clamp0 (l : List ℚ) : List ℚ := l.map (fun x => max x 0)

/-- predict(n_periods) for a successfully fitted external model followed by
the clamp applied in comparar_modelos. -/
def prever_oracle (f : Nat → ℚ) (n_previsao : ℕ) : List ℚ :=
  clamp0 ((List.range n_previsao).map f)

/-- The effective forecast horizon min(requested horizon, test length). -/
def n_previsao_calc (serie : List ℚ) (horizonte_previsao : ℕ) (proporcao_treino : ℚ) : ℕ :=
  min horizonte_previsao (dividir_serie_temporal serie proporcao_treino).2.length

/-- One externally fitted model block: key, display name and clamped
forecast when the fit succeeded, nothing when it raised. -/
def entrada_oracle (chave nome : String) (ajuste : Option (Nat → ℚ)) (n_previsao : ℕ) :
    List (String × String × List ℚ) :=
  match ajuste with
  | some f => [(chave, nome, prever_oracle f n_previsao)]
  | none => []

/-- The model blocks appended by comparar_modelos, in source order: SARIMA
annual (gated on at least 730 training observations, checked before any
fitting), SARIMA monthly, plain ARIMA, the unguarded moving average
baseline, exponential smoothing. -/
def entradas_comparacao (serie : List ℚ) (o : FitOracle)
    (horizonte_previsao : ℕ) (proporcao_treino : ℚ) : List (String × String × List ℚ) :=
  let serie_treino := (dividir_serie_temporal serie proporcao_treino).1
  let n := n_previsao_calc serie horizonte_previsao proporcao_treino
  (if 730 ≤ serie_treino.length then
      entrada_oracle "sarima_anual" "SARIMA Anual (m=365)" o.sarima_anual n
    else []) ++
  entrada_oracle "sarima_mensal" "SARIMA Mensal (m=30)" o.sarima_mensal n ++
  entrada_oracle "arima" "ARIMA Simples" o.arima n ++
  [("media_movel", "Media Movel (7 dias)",
    prever_media_movel (modelo_media_movel serie_treino 7) n)] ++
  entrada_oracle "exponencial" "Suavizacao Exponencial" o.exponencial n

/-- Embeds comparar_modelos from src/modelos/comparacao_modelos_previsao.py.
Each model block of the source appends, under one guard, the model key, the
clamped forecast and the evaluation record; the blocks are the segments of
entradas_comparacao.  A fit or predict exception removes the whole block,
which is the none case of the oracle. -/
def comparar_modelos (serie : List ℚ) (sku : String) (o : FitOracle)
    (horizonte_previsao : ℕ) (proporcao_treino : ℚ) : Resultados :=
  let serie_treino := (dividir_serie_temporal serie proporcao_treino).1
  let teste := serie_teste_previsao serie horizonte_previsao proporcao_treino
  let entradas := entradas_comparacao serie o horizonte_previsao proporcao_treino
  { sku := sku
    modelos := entradas.map (fun e => e.1)
    previsoes := entradas.map (fun e => (e.1, e.2.2))
    metricas := entradas.map (fun e => avaliar_modelo teste e.2.2 e.2.1)
    serie_treino := serie_treino
    serie_teste := teste
    teste_constante := teste_constante_flag teste
    usar_sarima_anual := decide (730 ≤ serie_treino.length) }

/- ===== identical-prediction cross-check inside comparar_modelos ===== -/

/-- np.allclose(p1, p2, rtol 1e-10, atol 1e-10): pointwise
abs (a - b) <= atol + rtol * abs b.  The source only calls it on
forecasts of equal length. -/
def sao_identicas (p1 p2 : List ℚ) : Bool :=
  (p1.zip p2).all
    (fun q => decide (|q.1 - q.2| ≤ (1 : ℚ) / 10000000000 + (1 : ℚ) / 10000000000 * |q.2|))

/-- All ordered pairs (i before j) of a list, the enumeration order of the
two nested loops of the source. -/
def allPairs {α : Type} : List α → List (α × α)
  | [] => []
  | x :: xs => xs.map (fun y => (x, y)) ++ allPairs xs

/-- Embeds the construction of prevs_comparar: the cross-check pool is
populated only from the sarima_mensal, arima and media_movel forecasts
(with their display names), in that order; the sarima_anual and
exponencial forecasts are never added. -/
def prevs_comparar (r : Resultados) : List (String × List ℚ) :=
  (match r.previsoes.lookup "sarima_mensal" with
    | some p => [("SARIMA Mensal", p)]
    | none => []) ++
  (match r.previsoes.lookup "arima" with
    | some p => [("ARIMA", p)]
    | none => []) ++
  (match r.previsoes.lookup "media_movel" with
    | some p => [("Media Movel", p)]
    | none => [])

/-- The pairs reported as identical by the cross-check loop: every ordered
pair of cross-check entries whose forecasts have equal length and are
np.allclose at tolerance 1e-10 (the AVISO CRITICO branch of the source). -/
def pares_identicos (r : Resultados) : List (String × String) :=
  let prevs := prevs_comparar r
  if 2 ≤ prevs.length then
    (allPairs prevs).filterMap
      (fun q =>
        if q.1.2.length = q.2.2.length && sao_identicas q.1.2 q.2.2
        then some (q.1.1, q.2.1) else none)
  else []

/- ===== CandidatePoolSelector: phase 2 of gerar_figuras_tcc ===== -/

/-- One candidate pool entry as consumed by the phase 2 filter of
src/gerar_figuras_tcc.py: the per-SKU comparison dict reduced to the
fields the selector reads — the teste_constante flag and the mae field of
each metrics record (x.get of mae, which can be None). -/
structure PoolEntry where
  sku : ℕ
  teste_constante : Bool
  metricas_mae : List (Option ℚ)
deriving DecidableEq

/-- The maes list of the source: mae fields that are not None. -/
def maes_validos (r : PoolEntry) : List ℚ := r.metricas_mae.filterMap id

/-- best_mae = min(maes). -/
def best_mae (r : PoolEntry) : ℚ := listMin (maes_validos r)

/-- diff_mae = max(maes) - min(maes). -/
def diff_mae (r : PoolEntry) : ℚ := listMax (maes_validos r) - listMin (maes_validos r)

/-- The phase 2 guards, in source order: skip when teste_constante, when the
metrics list is empty, when no mae is present, or when the best-to-worst mae
spread is below EPSILON_MAE_IGUAL = 0.01 (the insatisfatorio condition). -/
def sobrevive (r : PoolEntry) : Bool :=
  !r.teste_constante && !r.metricas_mae.isEmpty && !(maes_validos r).isEmpty
    && decide ((1 : ℚ) / 100 ≤ diff_mae r)

/-- elegiveis: the surviving entries paired with their best mae. -/
def elegiveis (pool : List PoolEntry) : List (PoolEntry × ℚ) :=
  (pool.filter sobrevive).map (fun r => (r, best_mae r))

/-- Sort key of elegiveis.sort(key = best mae), ascending. -/
def keyLe (a b : PoolEntry × ℚ) : Prop := a.2 ≤ b.2

instance : DecidableRel keyLe := fun a b => inferInstanceAs (Decidable (a.2 ≤ b.2))

instance : IsTotal (PoolEntry × ℚ) keyLe := ⟨fun a b => le_total a.2 b.2⟩

instance : IsTrans (PoolEntry × ℚ) keyLe := ⟨fun _ _ _ h1 h2 => le_trans h1 h2⟩

/-- Embeds phase 2 of gerar_figuras_tcc: filter, sort ascending by best mae
(python list.sort is stable, as is insertion sort), truncate to n_best and
keep the entries. -/
def select_top (pool : List PoolEntry) (n_best : ℕ) : List PoolEntry :=
  ((List.insertionSort keyLe (elegiveis pool)).take n_best).map Prod.fst

/- ===== ElencacaoRanker: teste_elencacao_3_skus ===== -/

/-- The per-SKU inputs of the elencacao: rentabilidade R(t), nivel de
urgencia U(t) and giro futuro previsto GP(t); none embeds a NaN float
(every float comparison against NaN is false). -/
structure SkuMetricas where
  sku : ℕ
  rentabilidade : Option ℚ
  nivel_urgencia : Option ℚ
  giro_futuro_previsto : Option ℚ
deriving DecidableEq

/-- A strict-positivity test under the NaN convention: false on none. -/
def opt_pos : Option ℚ → Bool
  | none => false
  | some v => decide (0 < v)

/-- Embeds calcular_score_elencacao with the default weights 0.4, 0.3 and
0.3: each normalisation clips to at most 1 and falls back to its else
branch when the guard value > 0 is false, which includes NaN inputs. -/
def calcular_score_elencacao
    (rentabilidade nivel_urgencia giro_futuro_previsto : Option ℚ) : ℚ :=
  let rent_norm := if opt_pos rentabilidade then min 1 (rentabilidade.getD 0 / 100) else 0
  let urgencia_norm :=
    min 1 (if opt_pos nivel_urgencia then 1 / (1 + nivel_urgencia.getD 0) else 1)
  let giro_norm :=
    if opt_pos giro_futuro_previsto then min 1 (giro_futuro_previsto.getD 0 / 1000) else 0
  2 / 5 * rent_norm + 3 / 10 * urgencia_norm + 3 / 10 * giro_norm

/-- The score column of gerar_elencacao_completa: the score is computed
only when neither U(t) nor GP(t) is NaN, and is NaN (none) otherwise. -/
def score_row (r : SkuMetricas) : Option ℚ :=
  match r.nivel_urgencia, r.giro_futuro_previsto with
  | some _, some _ =>
      some (calcular_score_elencacao r.rentabilidade r.nivel_urgencia r.giro_futuro_previsto)
  | _, _ => none

/-- Descending sort relation on (sku, score). -/
def scoreGe (a b : ℕ × ℚ) : Prop := b.2 ≤ a.2

instance : DecidableRel scoreGe := fun a b => inferInstanceAs (Decidable (b.2 ≤ a.2))

instance : IsTotal (ℕ × ℚ) scoreGe := ⟨fun a b => le_total b.2 a.2⟩

instance : IsTrans (ℕ × ℚ) scoreGe := ⟨fun _ _ _ h1 h2 => le_trans h2 h1⟩

/-- Embeds the ranking tail of gerar_elencacao_completa: rows whose score
is NaN are dropped (dropna on score_elencacao), the survivors are sorted
descending by score and the ranking column is 1..n. -/
def gerar_elencacao_completa (linhas : List SkuMetricas) : List ((ℕ × ℚ) × ℕ) :=
  let com_score := linhas.filterMap (fun r => (score_row r).map (fun s => (r.sku, s)))
  let ordenado := List.insertionSort scoreGe com_score
  ordenado.zip ((List.range ordenado.length).map (fun i => i + 1))

/- ===== SeriesPreparer: PrevisorEstoqueSARIMA.preparar_serie_temporal ===== -/

/-- One raw stock observation row: product id, day number (dates embedded
as day offsets), and the observed stock level, none for a NaN produced by
the coercing numeric parse of the loaders. -/
structure RegistroEstoque where
  sku : ℕ
  data : ℕ
  estoque_atual : Option ℚ
deriving DecidableEq

/-- Ascending order on the observation date. -/
def dataLe (a b : RegistroEstoque) : Prop := a.data ≤ b.data

instance : DecidableRel dataLe := fun a b => inferInstanceAs (Decidable (a.data ≤ b.data))

instance : IsTotal RegistroEstoque dataLe := ⟨fun a b => Nat.le_total a.data b.data⟩

instance : IsTrans RegistroEstoque dataLe := ⟨fun _ _ _ h1 h2 => Nat.le_trans h1 h2⟩

/-- drop_duplicates(subset data, keep last): keep a row exactly when no
later row carries the same date. -/
def dedup_keep_last : List RegistroEstoque → List RegistroEstoque
  | [] => []
  | x :: xs =>
      if xs.any (fun r => r.data == x.data) then dedup_keep_last xs
      else x :: dedup_keep_last xs

/-- Minimum of a list of naturals, 0 on the empty list. -/
def listMinNat : List ℕ → ℕ
  | [] => 0
  | x :: xs => xs.foldl min x

/-- Maximum of a list of naturals, 0 on the empty list. -/
def listMaxNat : List ℕ → ℕ
  | [] => 0
  | x :: xs => xs.foldl max x

/-- The daily grid produced by asfreq: every day from the first to the
last observation date, empty when there is no observation. -/
def dias_grade (l : List RegistroEstoque) : List ℕ :=
  match l with
  | [] => []
  | _ :: _ =>
      let dmin := listMinNat (l.map (fun r => r.data))
      let dmax := listMaxNat (l.map (fun r => r.data))
      (List.range (dmax - dmin + 1)).map (fun i => dmin + i)

/-- The value the asfreq ffill reindex assigns to day d: the stock value
of the latest observation on or before d (possibly none when that stored
value is itself NaN, which ffill propagates). -/
def valor_ffill (l : List RegistroEstoque) (d : ℕ) : Option ℚ :=
  match (l.filter (fun r => r.data ≤ d)).getLast? with
  | some r => r.estoque_atual
  | none => none

/-- The deduplicated, date-sorted observations of one product. -/
def observacoes_sku (df : List RegistroEstoque) (sku : ℕ) : List RegistroEstoque :=
  dedup_keep_last (List.insertionSort dataLe (df.filter (fun r => r.sku == sku)))

/-- Embeds PrevisorEstoqueSARIMA.preparar_serie_temporal from
src/previsoes/sarima_estoque.py: filter the product, sort by date, drop
duplicate dates keeping the last, resample to the daily grid with forward
fill, then dropna — the entries whose value is still missing are removed
from the series. -/
def preparar_serie_temporal (df : List RegistroEstoque) (sku : ℕ) : List (ℕ × ℚ) :=
  let sem_dup := observacoes_sku df sku
  let grade := dias_grade sem_dup
  let serie := grade.map (fun d => (d, valor_ffill sem_dup d))
  serie.filterMap (fun e => e.2.map (fun v => (e.1, v)))

/- ===== helper lemmas for the MAPE claims ===== -/

/-- The masked zip of the code and the masked index list of the spec carry
the same per-index contributions, in the same order. -/
theorem mape_mask_eq (ys : List ℚ) : ∀ ps : List ℚ, ys.length = ps.length →
    ((ys.zip ps).filter (fun p => p.1 ≠ 0)).map (fun p => |(p.1 - p.2) / p.1|)
      = ((List.range ys.length).filter (fun i => ys.getD i 0 ≠ 0)).map
          (fun i => |ys.getD i 0 - ps.getD i 0| / |ys.getD i 0|) := by
  induction ys with
  | nil =>
    intro ps h
    simp
  | cons y ys ih =>
    intro ps h
    cases ps with
    | nil => simp at h
    | cons p ps =>
      have hlen : ys.length = ps.length := by simpa using h
      by_cases hy : y = 0
      · simpa [hy, List.range_succ_eq_map, List.filter_map, Function.comp_def,
          Nat.succ_eq_add_one] using ih ps hlen
      · simpa [hy, List.range_succ_eq_map, List.filter_map, Function.comp_def,
          Nat.succ_eq_add_one, abs_div] using ih ps hlen

/-- The mask is empty exactly when every ground-truth value is zero. -/
theorem mape_mask_nil_iff (ys : List ℚ) : ∀ ps : List ℚ, ys.length = ps.length →
    (((ys.zip ps).filter (fun p => p.1 ≠ 0)) = [] ↔ ∀ y ∈ ys, y = 0) := by
  induction ys with
  | nil =>
    intro ps h
    simp
  | cons y ys ih =>
    intro ps h
    cases ps with
    | nil => simp at h
    | cons p ps =>
      have hlen : ys.length = ps.length := by simpa using h
      by_cases hy : y = 0
      · simpa [hy] using ih ps hlen
      · simp [hy]

/-- Claim C5: for every pair of equal-length sequences, calcular_mape is the
mean of abs (actual - predicted) / abs actual times 100 over exactly the
indices with non-zero actual value (the index-based spec reading mape_spec),
and it returns NaN (none) if and only if no index has a non-zero actual
value; with one zero ground-truth element among non-zero ones only that
index is skipped and the result is not NaN. -/
theorem c5_mape_skips_only_zero_indices (ys ps : List ℚ) (h : ys.length = ps.length) :
    calcular_mape ys ps = mape_spec ys ps ∧
    (calcular_mape ys ps = none ↔ ∀ y ∈ ys, y = 0) ∧
    ((∃ y ∈ ys, y ≠ 0) → (calcular_mape ys ps).isSome) := by
  have hm := mape_mask_eq ys ps h
  have hnil := mape_mask_nil_iff ys ps h
  have hLen : ((ys.zip ps).filter (fun p => p.1 ≠ 0)).length
      = ((List.range ys.length).filter (fun i => ys.getD i 0 ≠ 0)).length := by
    have h1 := congrArg List.length hm
    simpa using h1
  refine ⟨?_, ?_, ?_⟩
  · unfold calcular_mape mape_spec
    by_cases hM : ((ys.zip ps).filter (fun p => p.1 ≠ 0)).length = 0
    · have hI : ((List.range ys.length).filter (fun i => ys.getD i 0 ≠ 0)) = [] :=
        List.length_eq_zero.mp (hLen ▸ hM)
      rw [if_pos hM, if_pos hI]
    · have hI : ¬ ((List.range ys.length).filter (fun i => ys.getD i 0 ≠ 0)) = [] := by
        intro hII
        exact hM (by rw [hLen, hII]; rfl)
      rw [if_neg hM, if_neg hI, List.sum_map_mul_right, hm, hLen, div_mul_eq_mul_div]
  · unfold calcular_mape
    by_cases hM : ((ys.zip ps).filter (fun p => p.1 ≠ 0)).length = 0
    · rw [if_pos hM]
      exact ⟨fun _ => hnil.mp (List.length_eq_zero.mp hM), fun _ => rfl⟩
    · rw [if_neg hM]
      constructor
      · intro hc
        simp at hc
      · intro hall
        exact absurd (hnil.mpr hall) (fun he => hM (by rw [he]; rfl))
  · intro hex
    rcases hex with ⟨y, hy, hy0⟩
    have hMne : ¬ ((ys.zip ps).filter (fun p => p.1 ≠ 0)).length = 0 := by
      intro h0
      exact hy0 (hnil.mp (List.length_eq_zero.mp h0) y hy)
    unfold calcular_mape
    rw [if_neg hMne]
    rfl

/-- Witness for C5 at the concrete input actual = [2, 0, 3],
predicted = [1, 1, 1]: the zero ground-truth index is skipped, the two
remaining contributions give 175 / 3, and the result is not NaN. -/
theorem c5_mape_skips_only_zero_indices_witness :
    (([2, 0, 3] : List ℚ).length = ([1, 1, 1] : List ℚ).length) ∧
    calcular_mape [2, 0, 3] [1, 1, 1] = mape_spec [2, 0, 3] [1, 1, 1] ∧
    calcular_mape [2, 0, 3] [1, 1, 1] = some (175 / 3) :=
  ⟨rfl, (c5_mape_skips_only_zero_indices [2, 0, 3] [1, 1, 1] rfl).1,
    by norm_num [calcular_mape, List.zip, abs]⟩

/- ===== helper lemmas for the comparison engine claims ===== -/

theorem avaliar_modelo_modelo (y_real y_previsto : List ℚ) (nome : String) :
    (avaliar_modelo y_real y_previsto nome).modelo = nome := rfl

theorem entrada_oracle_none (chave nome : String) (n : ℕ) :
    entrada_oracle chave nome none n = [] := rfl

theorem entrada_oracle_some (chave nome : String) (f : Nat → ℚ) (n : ℕ) :
    entrada_oracle chave nome (some f) n = [(chave, nome, prever_oracle f n)] := rfl

/-- An oracle block is empty on a failed fit and a singleton on a
successful one. -/
theorem mem_entrada_oracle {chave nome : String} {ajuste : Option (Nat → ℚ)}
    {n : ℕ} {e : String × String × List ℚ} (he : e ∈ entrada_oracle chave nome ajuste n) :
    ∃ f, ajuste = some f ∧ e = (chave, nome, prever_oracle f n) := by
  cases ajuste with
  | none => simp [entrada_oracle] at he
  | some f =>
    simp only [entrada_oracle, List.mem_singleton] at he
    exact ⟨f, rfl, he⟩

/-- Every entry of entradas_comparacao is one of the five model blocks,
and the annual SARIMA block only occurs when the training prefix reaches
730 observations. -/
theorem mem_entradas_comparacao {serie : List ℚ} {o : FitOracle}
    {horizonte : ℕ} {prop : ℚ} {e : String × String × List ℚ}
    (he : e ∈ entradas_comparacao serie o horizonte prop) :
    (730 ≤ (dividir_serie_temporal serie prop).1.length ∧
      ∃ f, o.sarima_anual = some f ∧
        e = ("sarima_anual", "SARIMA Anual (m=365)",
          prever_oracle f (n_previsao_calc serie horizonte prop))) ∨
    (∃ f, o.sarima_mensal = some f ∧
      e = ("sarima_mensal", "SARIMA Mensal (m=30)",
        prever_oracle f (n_previsao_calc serie horizonte prop))) ∨
    (∃ f, o.arima = some f ∧
      e = ("arima", "ARIMA Simples",
        prever_oracle f (n_previsao_calc serie horizonte prop))) ∨
    e = ("media_movel", "Media Movel (7 dias)",
      prever_media_movel (modelo_media_movel (dividir_serie_temporal serie prop).1 7)
        (n_previsao_calc serie horizonte prop)) ∨
    (∃ f, o.exponencial = some f ∧
      e = ("exponencial", "Suavizacao Exponencial",
        prever_oracle f (n_previsao_calc serie horizonte prop))) := by
  unfold entradas_comparacao at he
  simp only [List.mem_append, List.mem_singleton] at he
  rcases he with ((((h1 | h2) | h3) | h4) | h5)
  · by_cases hgate : 730 ≤ (dividir_serie_temporal serie prop).1.length
    · rw [if_pos hgate] at h1
      rcases mem_entrada_oracle h1 with ⟨f, hf, rfl⟩
      exact Or.inl ⟨hgate, f, hf, rfl⟩
    · rw [if_neg hgate] at h1
      simp at h1
  · rcases mem_entrada_oracle h2 with ⟨f, hf, rfl⟩
    exact Or.inr (Or.inl ⟨f, hf, rfl⟩)
  · rcases mem_entrada_oracle h3 with ⟨f, hf, rfl⟩
    exact Or.inr (Or.inr (Or.inl ⟨f, hf, rfl⟩))
  · exact Or.inr (Or.inr (Or.inr (Or.inl h4)))
  · rcases mem_entrada_oracle h5 with ⟨f, hf, rfl⟩
    exact Or.inr (Or.inr (Or.inr (Or.inr ⟨f, hf, rfl⟩)))

/-- When the training prefix is shorter than 730 days the engine disables
the annual SARIMA before ever consulting the fitting library: no trace of
the variant appears in any of the result collections. -/
theorem sarima_anual_absent (serie : List ℚ) (sku : String) (o : FitOracle)
    (horizonte : ℕ) (prop : ℚ)
    (h : (dividir_serie_temporal serie prop).1.length < 730) :
    (comparar_modelos serie sku o horizonte prop).usar_sarima_anual = false ∧
    "sarima_anual" ∉ (comparar_modelos serie sku o horizonte prop).modelos ∧
    (∀ e ∈ (comparar_modelos serie sku o horizonte prop).previsoes,
      e.1 ≠ "sarima_anual") ∧
    (∀ m ∈ (comparar_modelos serie sku o horizonte prop).metricas,
      m.modelo ≠ "SARIMA Anual (m=365)") := by
  have hg : ¬ (730 ≤ (dividir_serie_temporal serie prop).1.length) := by omega
  refine ⟨decide_eq_false hg, ?_, ?_, ?_⟩
  · intro hmem
    have hex : ∃ e ∈ entradas_comparacao serie o horizonte prop, e.1 = "sarima_anual" := by
      simpa [comparar_modelos] using hmem
    obtain ⟨e, he, hkey⟩ := hex
    rcases mem_entradas_comparacao he with
      ⟨hgate, _⟩ | ⟨f, _, rfl⟩ | ⟨f, _, rfl⟩ | rfl | ⟨f, _, rfl⟩
    · exact hg hgate
    all_goals simp at hkey
  · intro p hp
    have hex : ∃ e ∈ entradas_comparacao serie o horizonte prop, (e.1, e.2.2) = p := by
      simpa [comparar_modelos] using hp
    obtain ⟨e, he, hkey⟩ := hex
    rcases mem_entradas_comparacao he with
      ⟨hgate, _⟩ | ⟨f, _, rfl⟩ | ⟨f, _, rfl⟩ | rfl | ⟨f, _, rfl⟩
    · exact absurd hgate hg
    all_goals simp [← hkey]
  · intro m hm
    have hex : ∃ e ∈ entradas_comparacao serie o horizonte prop,
        avaliar_modelo (serie_teste_previsao serie horizonte prop) e.2.2 e.2.1 = m := by
      simpa [comparar_modelos] using hm
    obtain ⟨e, he, hkey⟩ := hex
    rcases mem_entradas_comparacao he with
      ⟨hgate, _⟩ | ⟨f, _, rfl⟩ | ⟨f, _, rfl⟩ | rfl | ⟨f, _, rfl⟩
    · exact absurd hgate hg
    all_goals simp [← hkey, avaliar_modelo_modelo]

/-- Claim C2: for every input series, when the train/test split leaves a
training prefix shorter than 730 observations, the seasonal-long (m = 365)
variant is entirely absent from the comparison result — it never appears
among the model keys, the forecasts or the metric records, because the
engine skips it before fitting. -/
theorem c2_seasonal_long_absent_short_train (serie : List ℚ) (sku : String)
    (o : FitOracle) (horizonte : ℕ) (prop : ℚ)
    (h : (dividir_serie_temporal serie prop).1.length < 730) :
    "sarima_anual" ∉ (comparar_modelos serie sku o horizonte prop).modelos ∧
    (∀ e ∈ (comparar_modelos serie sku o horizonte prop).previsoes,
      e.1 ≠ "sarima_anual") ∧
    (∀ m ∈ (comparar_modelos serie sku o horizonte prop).metricas,
      m.modelo ≠ "SARIMA Anual (m=365)") :=
  (sarima_anual_absent serie sku o horizonte prop h).2

/-- Witness for C2: a ten-day series split at 0.8 has a training prefix of
8 < 730 days and its comparison result carries no seasonal-long entry even
though the oracle would have succeeded. -/
theorem c2_seasonal_long_absent_short_train_witness :
    "sarima_anual" ∉ (comparar_modelos (List.replicate 10 (1 : ℚ)) "SKU"
      ⟨some (fun _ => 1), some (fun _ => 1), some (fun _ => 1), some (fun _ => 1)⟩
      30 (4/5)).modelos :=
  (c2_seasonal_long_absent_short_train (List.replicate 10 (1 : ℚ)) "SKU"
    ⟨some (fun _ => 1), some (fun _ => 1), some (fun _ => 1), some (fun _ => 1)⟩
    30 (4/5) (by simp [dividir_serie_temporal])).1

/- ===== C3: the 800-day scenario and the gating boundary ===== -/

/-- The scenario series: 800 daily values on a linear trend from 100 to
150 (the claim only depends on the length of the series). -/
def serie800 : List ℚ := (List.range 800).map (fun i => 100 + (Nat.cast i : ℚ) * 50 / 799)

/-- An oracle on which every external fit would succeed, so that any
absence of a variant is due to gating, not to a fit failure. -/
def oracle_ok : FitOracle :=
  ⟨some (fun _ => 1), some (fun _ => 1), some (fun _ => 1), some (fun _ => 1)⟩

/-- Counterexample to claim C3: for a series of 800 daily values compared
with train fraction 0.8 the training prefix has int(800 * 0.8) = 640 < 730
observations, so the seasonal-long (m = 365) variant is NOT attempted — the
engine disables it and no seasonal-long entry exists in the result — even
though every external fit would have succeeded. -/
theorem c3_counterexample :
    serie800.length = 800 ∧
    (dividir_serie_temporal serie800 (4/5)).1.length = 640 ∧
    (comparar_modelos serie800 "SKU800" oracle_ok 30 (4/5)).usar_sarima_anual = false ∧
    "sarima_anual" ∉ (comparar_modelos serie800 "SKU800" oracle_ok 30 (4/5)).modelos := by
  have hlen : serie800.length = 800 := by
    simp only [serie800, List.length_map, List.length_range]
  have htr : (dividir_serie_temporal serie800 (4/5)).1.length = 640 := by
    simp only [dividir_serie_temporal, List.length_take, hlen]
    norm_num
    rfl
  have habs := sarima_anual_absent serie800 "SKU800" oracle_ok 30 (4/5) (by omega)
  exact ⟨hlen, htr, habs.1, habs.2.1⟩

/-- Claim C3 as amended: the 730-day gate of the engine applies to the
training prefix, not to the whole series; for every series of 800 daily
values compared with train fraction 0.8 the training prefix has 640 < 730
observations and the seasonal-long (m = 365) variant is therefore skipped,
for any outcome of the external fits. -/
theorem c3_amended_gate_applies_to_train (serie : List ℚ) (sku : String)
    (o : FitOracle) (h : serie.length = 800) :
    (dividir_serie_temporal serie (4/5)).1.length = 640 ∧
    (comparar_modelos serie sku o 30 (4/5)).usar_sarima_anual = false ∧
    "sarima_anual" ∉ (comparar_modelos serie sku o 30 (4/5)).modelos := by
  have htr : (dividir_serie_temporal serie (4/5)).1.length = 640 := by
    simp only [dividir_serie_temporal, List.length_take, h]
    norm_num
    rfl
  have habs := sarima_anual_absent serie sku o 30 (4/5) (by omega)
  exact ⟨htr, habs.1, habs.2.1⟩

/-- Witness for the amended C3 at a concrete 800-day series. -/
theorem c3_amended_gate_applies_to_train_witness :
    (dividir_serie_temporal (List.replicate 800 (1 : ℚ)) (4/5)).1.length = 640 ∧
    (comparar_modelos (List.replicate 800 (1 : ℚ)) "SKU" oracle_ok 30
      (4/5)).usar_sarima_anual = false ∧
    "sarima_anual" ∉ (comparar_modelos (List.replicate 800 (1 : ℚ)) "SKU" oracle_ok 30
      (4/5)).modelos :=
  c3_amended_gate_applies_to_train (List.replicate 800 (1 : ℚ)) "SKU" oracle_ok
    (by rw [List.length_replicate])

/- ===== C4: constant test segment ===== -/

theorem foldl_min_all_eq (c : ℚ) : ∀ (xs : List ℚ) (x : ℚ), x = c → (∀ v ∈ xs, v = c) →
    xs.foldl min x = c := by
  intro xs
  induction xs with
  | nil =>
    intro x hx _
    simpa using hx
  | cons y ys ih =>
    intro x hx hall
    have hy : y = c := hall y (by simp)
    have hmin : min x y = c := by rw [hx, hy, min_self]
    exact ih (min x y) hmin (fun v hv => hall v (by simp [hv]))

theorem foldl_max_all_eq (c : ℚ) : ∀ (xs : List ℚ) (x : ℚ), x = c → (∀ v ∈ xs, v = c) →
    xs.foldl max x = c := by
  intro xs
  induction xs with
  | nil =>
    intro x hx _
    simpa using hx
  | cons y ys ih =>
    intro x hx hall
    have hy : y = c := hall y (by simp)
    have hmax : max x y = c := by rw [hx, hy, max_self]
    exact ih (max x y) hmax (fun v hv => hall v (by simp [hv]))

/-- A non-empty all-constant series trips the degeneracy flag through its
zero range. -/
theorem teste_constante_of_const (l : List ℚ) (c : ℚ) (hne : l ≠ [])
    (hc : ∀ v ∈ l, v = c) : teste_constante_flag l = true := by
  have hmin : listMin l = c := by
    cases l with
    | nil => exact absurd rfl hne
    | cons x xs =>
      exact foldl_min_all_eq c xs x (hc x (by simp)) (fun v hv => hc v (by simp [hv]))
  have hmax : listMax l = c := by
    cases l with
    | nil => exact absurd rfl hne
    | cons x xs =>
      exact foldl_max_all_eq c xs x (hc x (by simp)) (fun v hv => hc v (by simp [hv]))
  have hrange : listMax l - listMin l < (1 : ℚ) / 100 := by
    rw [hmax, hmin, sub_self]
    norm_num
  unfold teste_constante_flag
  exact Bool.or_eq_true _ _ |>.mpr (Or.inr (decide_eq_true ⟨hne, hrange⟩))

/-- When ground truth and forecast are both constantly c, the mean absolute
error vanishes. -/
theorem mae_zero_of_const (ys ps : List ℚ) (c : ℚ) (hys : ∀ v ∈ ys, v = c)
    (hps : ∀ v ∈ ps, v = c) (nome : String) :
    (avaliar_modelo ys ps nome).mae = 0 := by
  have hsum : ((ys.zip ps).map (fun p => |p.1 - p.2|)).sum = 0 := by
    apply List.sum_eq_zero
    intro x hx
    rcases List.mem_map.mp hx with ⟨q, hq, rfl⟩
    rcases List.of_mem_zip hq with ⟨h1, h2⟩
    rw [hys _ h1, hps _ h2, sub_self, abs_zero]
  simp [avaliar_modelo, hsum]

/-- Every successful external fit forecasts constantly c. -/
def OracleConstante (o : FitOracle) (c : ℚ) : Prop :=
  (∀ f, o.sarima_anual = some f → ∀ i, f i = c) ∧
  (∀ f, o.sarima_mensal = some f → ∀ i, f i = c) ∧
  (∀ f, o.arima = some f → ∀ i, f i = c) ∧
  (∀ f, o.exponencial = some f → ∀ i, f i = c)

theorem prever_oracle_const (f : Nat → ℚ) (n : ℕ) (c : ℚ) (h0 : 0 ≤ c)
    (hf : ∀ i, f i = c) : ∀ v ∈ prever_oracle f n, v = c := by
  intro v hv
  unfold prever_oracle clamp0 at hv
  rcases List.mem_map.mp hv with ⟨x, hx, rfl⟩
  rcases List.mem_map.mp hx with ⟨i, _, rfl⟩
  rw [hf i, max_eq_left h0]

/-- The concrete series of the C4 counterexample: ten days, training
prefix [0,0,0,0,0,0,0,14], test segment constantly 5. -/
def serie_c4 : List ℚ := [0, 0, 0, 0, 0, 0, 0, 14, 5, 5]

/-- Oracle of the C4 counterexample: only the plain ARIMA fit succeeds and
it forecasts the constant 5 (a random-walk style constant forecast). -/
def oracle_c4 : FitOracle := ⟨none, none, some (fun _ => 5), none⟩

/-- Counterexample to claim C4: the test segment is constantly 5 and the
flag is set, but the recorded models have different MAE values (0 for the
ARIMA forecast [5, 5] and 3 for the moving-average forecast [2, 2] built
from the non-constant training tail), so the metric values are NOT all
equal to each other. -/
theorem c4_counterexample :
    (comparar_modelos serie_c4 "SKU" oracle_c4 30 (4/5)).teste_constante = true ∧
    (∀ v ∈ (comparar_modelos serie_c4 "SKU" oracle_c4 30 (4/5)).serie_teste, v = 5) ∧
    (comparar_modelos serie_c4 "SKU" oracle_c4 30 (4/5)).metricas.map Metricas.mae
      = [0, 3] ∧
    ¬ (∀ m1 ∈ (comparar_modelos serie_c4 "SKU" oracle_c4 30 (4/5)).metricas,
        ∀ m2 ∈ (comparar_modelos serie_c4 "SKU" oracle_c4 30 (4/5)).metricas,
          m1.mae = m2.mae) := by
  have hn : (⌊((serie_c4.length : ℚ)) * (4 / 5)⌋).toNat = 8 := by
    norm_num [serie_c4]
    rfl
  have hsplit : dividir_serie_temporal serie_c4 (4 / 5) = ([0, 0, 0, 0, 0, 0, 0, 14], [5, 5]) := by
    simp only [dividir_serie_temporal, hn]
    rfl
  have hteste : serie_teste_previsao serie_c4 30 (4 / 5) = [5, 5] := by
    simp only [serie_teste_previsao, hsplit]
    rfl
  have hflag : (comparar_modelos serie_c4 "SKU" oracle_c4 30 (4/5)).teste_constante = true := by
    show teste_constante_flag (serie_teste_previsao serie_c4 30 (4/5)) = true
    rw [hteste]
    refine teste_constante_of_const _ 5 (by simp) ?_
    intro v hv
    simp only [List.mem_cons, List.not_mem_nil, or_false, or_self] at hv
    exact hv
  have hgate : ¬ (730 ≤ (dividir_serie_temporal serie_c4 (4/5)).1.length) := by
    rw [hsplit]
    norm_num
  have hnprev : n_previsao_calc serie_c4 30 (4/5) = 2 := by
    simp only [n_previsao_calc, hsplit]
    rfl
  have harima : prever_oracle (fun _ => (5 : ℚ)) 2 = [5, 5] := by
    simp only [prever_oracle, clamp0]
    norm_num [List.range_succ]
  have hmedia7 : modelo_media_movel (dividir_serie_temporal serie_c4 (4/5)).1 7
      = [0, 0, 0, 0, 0, 0, 14] := by
    rw [hsplit]
    rfl
  have hmediaval : media [0, 0, 0, 0, 0, 0, (14 : ℚ)] = 2 := by
    norm_num [media]
  have hmm : prever_media_movel (modelo_media_movel (dividir_serie_temporal serie_c4 (4/5)).1 7)
      (n_previsao_calc serie_c4 30 (4/5)) = [2, 2] := by
    rw [hmedia7, hnprev]
    simp [prever_media_movel, hmediaval, List.replicate]
  have hentradas : entradas_comparacao serie_c4 oracle_c4 30 (4/5)
      = [("arima", "ARIMA Simples", [5, 5]),
         ("media_movel", "Media Movel (7 dias)", [2, 2])] := by
    simp only [entradas_comparacao, oracle_c4, hgate, if_false, entrada_oracle_none,
      entrada_oracle_some, List.nil_append, List.append_nil, hnprev, harima]
    rw [List.singleton_append]
    rw [show prever_media_movel (modelo_media_movel
      (dividir_serie_temporal serie_c4 (4 / 5)).1 7) 2 = [2, 2] from ?_]
    · rw [hmedia7]
      simp [prever_media_movel, hmediaval, List.replicate]
  have hmae0 : (avaliar_modelo [5, 5] [5, 5] "ARIMA Simples").mae = 0 := by
    norm_num [avaliar_modelo, List.zip]
  have hmae3 : (avaliar_modelo [5, 5] [2, 2] "Media Movel (7 dias)").mae = 3 := by
    norm_num [avaliar_modelo, List.zip]
  have hmet : (comparar_modelos serie_c4 "SKU" oracle_c4 30 (4/5)).metricas.map Metricas.mae
      = [0, 3] := by
    show ((entradas_comparacao serie_c4 oracle_c4 30 (4/5)).map
      (fun e => avaliar_modelo (serie_teste_previsao serie_c4 30 (4/5)) e.2.2 e.2.1)).map
        Metricas.mae = [0, 3]
    rw [hentradas, hteste]
    simp only [List.map_cons, List.map_nil]
    rw [hmae0, hmae3]
  refine ⟨hflag, ?_, hmet, ?_⟩
  · intro v hv
    have hv2 : v ∈ serie_teste_previsao serie_c4 30 (4/5) := hv
    rw [hteste] at hv2
    simp only [List.mem_cons, List.not_mem_nil, or_false, or_self] at hv2
    exact hv2
  · intro hall
    have h0 : (0 : ℚ) ∈ (comparar_modelos serie_c4 "SKU" oracle_c4 30 (4/5)).metricas.map
        Metricas.mae := by
      rw [hmet]
      simp
    have h3 : (3 : ℚ) ∈ (comparar_modelos serie_c4 "SKU" oracle_c4 30 (4/5)).metricas.map
        Metricas.mae := by
      rw [hmet]
      simp
    rcases List.mem_map.mp h0 with ⟨m1, hm1, hmae1⟩
    rcases List.mem_map.mp h3 with ⟨m2, hm2, hmae2⟩
    have := hall m1 hm1 m2 hm2
    rw [hmae1, hmae2] at this
    norm_num at this

/-- Claim C4 as amended: for every non-empty test segment whose values all
equal a constant c, the comparison result sets teste_constante = true; the
recorded models all have equal MAE only under the additional condition that
every produced forecast is also constantly c (non-negative c, every
successful fit forecasting c, and the mean of the last 7 training values
equal to c) — and then every MAE is 0; in general the forecasts are fitted
on the training prefix and may differ, giving different MAE values. -/
theorem c4_amended_constant_test (serie : List ℚ) (sku : String) (o : FitOracle)
    (horizonte : ℕ) (prop : ℚ) (c : ℚ)
    (hne : serie_teste_previsao serie horizonte prop ≠ [])
    (hc : ∀ v ∈ serie_teste_previsao serie horizonte prop, v = c) :
    (comparar_modelos serie sku o horizonte prop).teste_constante = true ∧
    (0 ≤ c →
      media (modelo_media_movel (dividir_serie_temporal serie prop).1 7) = c →
      OracleConstante o c →
      ∀ m ∈ (comparar_modelos serie sku o horizonte prop).metricas, m.mae = 0) := by
  constructor
  · show teste_constante_flag (serie_teste_previsao serie horizonte prop) = true
    exact teste_constante_of_const _ c hne hc
  · intro h0 hmedia horc m hm
    have hex : ∃ e ∈ entradas_comparacao serie o horizonte prop,
        avaliar_modelo (serie_teste_previsao serie horizonte prop) e.2.2 e.2.1 = m := by
      simpa [comparar_modelos] using hm
    obtain ⟨e, he, hkey⟩ := hex
    rw [← hkey]
    have hps : ∀ v ∈ e.2.2, v = c := by
      rcases mem_entradas_comparacao he with
        ⟨_, f, hf, rfl⟩ | ⟨f, hf, rfl⟩ | ⟨f, hf, rfl⟩ | rfl | ⟨f, hf, rfl⟩
      · exact prever_oracle_const f _ c h0 (horc.1 f hf)
      · exact prever_oracle_const f _ c h0 (horc.2.1 f hf)
      · exact prever_oracle_const f _ c h0 (horc.2.2.1 f hf)
      · intro v hv
        have := List.eq_of_mem_replicate hv
        rw [this, hmedia]
      · exact prever_oracle_const f _ c h0 (horc.2.2.2 f hf)
    exact mae_zero_of_const _ _ c hc hps _

/-- Witness series for the amended C4: constantly 5 over ten days. -/
def serie_c4w : List ℚ := [5, 5, 5, 5, 5, 5, 5, 5, 5, 5]

/-- Witness oracle for the amended C4: only the monthly SARIMA fit
succeeds and it forecasts the constant 5. -/
def oracle_c4w : FitOracle := ⟨none, some (fun _ => 5), none, none⟩

/-- Witness for the amended C4 at the constant series: the flag is set and
every recorded MAE is 0. -/
theorem c4_amended_constant_test_witness :
    (comparar_modelos serie_c4w "SKU" oracle_c4w 30 (4/5)).teste_constante = true ∧
    ∀ m ∈ (comparar_modelos serie_c4w "SKU" oracle_c4w 30 (4/5)).metricas, m.mae = 0 := by
  have hn : (⌊((serie_c4w.length : ℚ)) * (4 / 5)⌋).toNat = 8 := by
    norm_num [serie_c4w]
    rfl
  have hsplit : dividir_serie_temporal serie_c4w (4 / 5)
      = ([5, 5, 5, 5, 5, 5, 5, 5], [5, 5]) := by
    simp only [dividir_serie_temporal, hn]
    rfl
  have hteste : serie_teste_previsao serie_c4w 30 (4 / 5) = [5, 5] := by
    simp only [serie_teste_previsao, hsplit]
    rfl
  have hc : ∀ v ∈ serie_teste_previsao serie_c4w 30 (4 / 5), v = 5 := by
    intro v hv
    rw [hteste] at hv
    simp only [List.mem_cons, List.not_mem_nil, or_false, or_self] at hv
    exact hv
  have hmedia : media (modelo_media_movel (dividir_serie_temporal serie_c4w (4/5)).1 7)
      = 5 := by
    rw [hsplit]
    show media [5, 5, 5, 5, 5, 5, 5] = 5
    norm_num [media]
  have horc : OracleConstante oracle_c4w 5 := by
    refine ⟨?_, ?_, ?_, ?_⟩
    · intro f hf
      simp [oracle_c4w] at hf
    · intro f hf i
      simp only [oracle_c4w, Option.some.injEq] at hf
      rw [← hf]
    · intro f hf
      simp [oracle_c4w] at hf
    · intro f hf
      simp [oracle_c4w] at hf
  have h := c4_amended_constant_test serie_c4w "SKU" oracle_c4w 30 (4/5) 5
    (by rw [hteste]; simp) hc
  exact ⟨h.1, h.2 (by norm_num) hmedia horc⟩

/- ===== C7: clamping invariant; C10: unconditional moving average ===== -/

theorem prever_oracle_nonneg (f : Nat → ℚ) (n : ℕ) : ∀ x ∈ prever_oracle f n, 0 ≤ x := by
  intro x hx
  unfold prever_oracle clamp0 at hx
  rcases List.mem_map.mp hx with ⟨y, _, rfl⟩
  exact le_max_right y 0

theorem media_nonneg (l : List ℚ) (h : ∀ v ∈ l, 0 ≤ v) : 0 ≤ media l :=
  div_nonneg (List.sum_nonneg h) (Nat.cast_nonneg _)

/-- Claim C7: for every input series of non-negative values, every forecast
recorded in the comparison result is pointwise non-negative — the external
forecasts are clamped with np.maximum(prev, 0) and the moving-average
forecast is a mean of non-negative training values. -/
theorem c7_forecasts_nonneg (serie : List ℚ) (sku : String) (o : FitOracle)
    (horizonte : ℕ) (prop : ℚ) (hnn : ∀ v ∈ serie, 0 ≤ v) :
    ∀ p ∈ (comparar_modelos serie sku o horizonte prop).previsoes, ∀ x ∈ p.2, 0 ≤ x := by
  intro p hp x hx
  have hex : ∃ e ∈ entradas_comparacao serie o horizonte prop, (e.1, e.2.2) = p := by
    simpa [comparar_modelos] using hp
  obtain ⟨e, he, hkey⟩ := hex
  have hx2 : x ∈ e.2.2 := by
    have h2 : p.2 = e.2.2 := by rw [← hkey]
    rw [h2] at hx
    exact hx
  rcases mem_entradas_comparacao he with
    ⟨_, f, _, rfl⟩ | ⟨f, _, rfl⟩ | ⟨f, _, rfl⟩ | rfl | ⟨f, _, rfl⟩
  · exact prever_oracle_nonneg f _ x hx2
  · exact prever_oracle_nonneg f _ x hx2
  · exact prever_oracle_nonneg f _ x hx2
  · have hxm := List.eq_of_mem_replicate hx2
    rw [hxm]
    apply media_nonneg
    intro v hv
    have hv2 : v ∈ (dividir_serie_temporal serie prop).1 :=
      (List.drop_sublist _ _).subset hv
    have hv3 : v ∈ serie := (List.take_sublist _ _).subset hv2
    exact hnn v hv3
  · exact prever_oracle_nonneg f _ x hx2

/-- Oracle on which every external fit raised: only the moving-average
baseline remains. -/
def oracle_none : FitOracle := ⟨none, none, none, none⟩

/-- Witness for C7: on the non-negative series [1, 2] with every external
fit failing, the recorded moving-average forecast value 1 is non-negative,
obtained by instantiating the claim theorem. -/
theorem c7_forecasts_nonneg_witness : (0 : ℚ) ≤ 1 := by
  have hn : (⌊(([(1 : ℚ), 2].length : ℚ)) * (4 / 5)⌋).toNat = 1 := by
    norm_num
  have hsplit : dividir_serie_temporal [(1 : ℚ), 2] (4 / 5) = ([1], [2]) := by
    simp only [dividir_serie_temporal, hn]
    rfl
  have hgate : ¬ (730 ≤ (dividir_serie_temporal [(1 : ℚ), 2] (4/5)).1.length) := by
    rw [hsplit]
    norm_num
  have hnprev : n_previsao_calc [(1 : ℚ), 2] 30 (4/5) = 1 := by
    simp only [n_previsao_calc, hsplit]
    rfl
  have hmm : prever_media_movel
      (modelo_media_movel (dividir_serie_temporal [(1 : ℚ), 2] (4/5)).1 7)
      (n_previsao_calc [(1 : ℚ), 2] 30 (4/5)) = [1] := by
    rw [hnprev, hsplit]
    show prever_media_movel (modelo_media_movel [(1 : ℚ)] 7) 1 = [1]
    norm_num [prever_media_movel, modelo_media_movel, media, List.replicate]
  have hentradas : entradas_comparacao [(1 : ℚ), 2] oracle_none 30 (4/5)
      = [("media_movel", "Media Movel (7 dias)", [1])] := by
    simp only [entradas_comparacao, oracle_none, hgate, if_false, entrada_oracle_none,
      List.nil_append, List.append_nil]
    rw [hmm]
  have hprev : ("media_movel", [(1 : ℚ)])
      ∈ (comparar_modelos [(1 : ℚ), 2] "S" oracle_none 30 (4/5)).previsoes := by
    show ("media_movel", [(1 : ℚ)]) ∈ (entradas_comparacao [(1 : ℚ), 2] oracle_none 30
      (4/5)).map (fun e => (e.1, e.2.2))
    rw [hentradas]
    simp
  exact c7_forecasts_nonneg [(1 : ℚ), 2] "S" oracle_none 30 (4/5)
    (by intro v hv; rcases List.mem_cons.mp hv with rfl | hv2; · norm_num
        · rcases List.mem_singleton.mp hv2 with rfl; norm_num)
    ("media_movel", [(1 : ℚ)]) hprev 1 (by simp)

/-- Claim C10: the moving-average block of the engine is unconditional — for
every input series and every combination of external fit outcomes the
comparison result records the moving-average model, its metric entry is
present, and the metrics list is never empty; the engine has no per-SKU
no-usable-model failure path. -/
theorem c10_media_movel_unconditional (serie : List ℚ) (sku : String) (o : FitOracle)
    (horizonte : ℕ) (prop : ℚ) :
    "media_movel" ∈ (comparar_modelos serie sku o horizonte prop).modelos ∧
    (∃ m ∈ (comparar_modelos serie sku o horizonte prop).metricas,
      m.modelo = "Media Movel (7 dias)") ∧
    (comparar_modelos serie sku o horizonte prop).metricas ≠ [] := by
  have hmem : ("media_movel", "Media Movel (7 dias)",
      prever_media_movel (modelo_media_movel (dividir_serie_temporal serie prop).1 7)
        (n_previsao_calc serie horizonte prop))
      ∈ entradas_comparacao serie o horizonte prop := by
    unfold entradas_comparacao
    simp
  refine ⟨?_, ?_, ?_⟩
  · show "media_movel" ∈ (entradas_comparacao serie o horizonte prop).map (fun e => e.1)
    exact List.mem_map.mpr ⟨_, hmem, rfl⟩
  · refine ⟨avaliar_modelo (serie_teste_previsao serie horizonte prop)
      (prever_media_movel (modelo_media_movel (dividir_serie_temporal serie prop).1 7)
        (n_previsao_calc serie horizonte prop)) "Media Movel (7 dias)", ?_, rfl⟩
    show _ ∈ (entradas_comparacao serie o horizonte prop).map
      (fun e => avaliar_modelo (serie_teste_previsao serie horizonte prop) e.2.2 e.2.1)
    exact List.mem_map.mpr ⟨_, hmem, rfl⟩
  · intro hnil
    have h2 : (∃ m ∈ (comparar_modelos serie sku o horizonte prop).metricas,
        m.modelo = "Media Movel (7 dias)") := by
      refine ⟨avaliar_modelo (serie_teste_previsao serie horizonte prop)
        (prever_media_movel (modelo_media_movel (dividir_serie_temporal serie prop).1 7)
          (n_previsao_calc serie horizonte prop)) "Media Movel (7 dias)", ?_, rfl⟩
      show _ ∈ (entradas_comparacao serie o horizonte prop).map
        (fun e => avaliar_modelo (serie_teste_previsao serie horizonte prop) e.2.2 e.2.1)
      exact List.mem_map.mpr ⟨_, hmem, rfl⟩
    rcases h2 with ⟨m, hm, _⟩
    rw [hnil] at hm
    exact List.not_mem_nil m hm

/- ===== C6: scope of the identical-prediction cross-check ===== -/

theorem allPairs_mem {α : Type} (l : List α) : ∀ x ∈ allPairs l, x.1 ∈ l ∧ x.2 ∈ l := by
  induction l with
  | nil =>
    intro x hx
    simp [allPairs] at hx
  | cons a as ih =>
    intro x hx
    unfold allPairs at hx
    rcases List.mem_append.mp hx with h | h
    · rcases List.mem_map.mp h with ⟨y, hy, rfl⟩
      exact ⟨by simp, by simp [hy]⟩
    · rcases ih x h with ⟨h1, h2⟩
      exact ⟨by simp [h1], by simp [h2]⟩

/-- Every reported identical pair arises from an ordered pair of
cross-check entries and carries their display names. -/
theorem mem_pares_identicos_shape (r : Resultados) :
    ∀ q ∈ pares_identicos r, ∃ x ∈ allPairs (prevs_comparar r), q = (x.1.1, x.2.1) := by
  intro q hq
  unfold pares_identicos at hq
  by_cases h2 : 2 ≤ (prevs_comparar r).length
  · rw [if_pos h2] at hq
    rcases List.mem_filterMap.mp hq with ⟨x, hx, hgx⟩
    refine ⟨x, hx, ?_⟩
    split at hgx
    · exact (Option.some.inj hgx).symm
    · exact absurd hgx (by simp)
  · rw [if_neg h2] at hq
    simp at hq

/-- Every cross-check entry carries one of the three pooled display
names: the seasonal-long and exponential-smoothing forecasts are never
pooled. -/
theorem prevs_comparar_names (r : Resultados) :
    ∀ e ∈ prevs_comparar r, e.1 = "SARIMA Mensal" ∨ e.1 = "ARIMA" ∨ e.1 = "Media Movel" := by
  intro e he
  unfold prevs_comparar at he
  rcases hm : r.previsoes.lookup "sarima_mensal" with _ | pm <;>
    rcases ha : r.previsoes.lookup "arima" with _ | pa <;>
      rcases hmd : r.previsoes.lookup "media_movel" with _ | pmd <;>
        rw [hm, ha, hmd] at he <;> simp at he <;>
          first
          | (rcases he with he | he <;> simp [he])
          | (rcases he with he | he | he <;> simp [he])
          | simp [he]

/-- Claim C6 as amended: the cross-check runs only over the pooled
sarima_mensal, arima and media_movel forecasts — every reported pair
carries two of those three names, so pairs involving the seasonal-long or
exponential-smoothing forecasts are never checked; within the pool, every
ordered pair of present forecasts with equal length that is numerically
identical at tolerance 1e-10 is reported. -/
theorem c6_amended_crosscheck_scope (r : Resultados) :
    (∀ q ∈ pares_identicos r,
      (q.1 = "SARIMA Mensal" ∨ q.1 = "ARIMA" ∨ q.1 = "Media Movel") ∧
      (q.2 = "SARIMA Mensal" ∨ q.2 = "ARIMA" ∨ q.2 = "Media Movel")) ∧
    (∀ p1 p2, r.previsoes.lookup "sarima_mensal" = some p1 →
      r.previsoes.lookup "arima" = some p2 →
      p1.length = p2.length → sao_identicas p1 p2 = true →
      ("SARIMA Mensal", "ARIMA") ∈ pares_identicos r) ∧
    (∀ p1 p2, r.previsoes.lookup "sarima_mensal" = some p1 →
      r.previsoes.lookup "media_movel" = some p2 →
      p1.length = p2.length → sao_identicas p1 p2 = true →
      ("SARIMA Mensal", "Media Movel") ∈ pares_identicos r) ∧
    (∀ p1 p2, r.previsoes.lookup "arima" = some p1 →
      r.previsoes.lookup "media_movel" = some p2 →
      p1.length = p2.length → sao_identicas p1 p2 = true →
      ("ARIMA", "Media Movel") ∈ pares_identicos r) := by
  refine ⟨?_, ?_, ?_, ?_⟩
  · intro q hq
    rcases mem_pares_identicos_shape r q hq with ⟨x, hx, rfl⟩
    rcases allPairs_mem _ x hx with ⟨h1, h2⟩
    exact ⟨prevs_comparar_names r x.1 h1, prevs_comparar_names r x.2 h2⟩
  · intro p1 p2 h1 h2 hlen hsao
    rcases hmd : r.previsoes.lookup "media_movel" with _ | pmd
    · have hpc : prevs_comparar r = [("SARIMA Mensal", p1), ("ARIMA", p2)] := by
        unfold prevs_comparar
        rw [h1, h2, hmd]
        rfl
      unfold pares_identicos
      rw [hpc, if_pos (by norm_num)]
      apply List.mem_filterMap.mpr
      refine ⟨(("SARIMA Mensal", p1), ("ARIMA", p2)), by simp [allPairs], ?_⟩
      simp [hlen, hsao]
    · have hpc : prevs_comparar r
          = [("SARIMA Mensal", p1), ("ARIMA", p2), ("Media Movel", pmd)] := by
        unfold prevs_comparar
        rw [h1, h2, hmd]
        rfl
      unfold pares_identicos
      rw [hpc, if_pos (by norm_num)]
      apply List.mem_filterMap.mpr
      refine ⟨(("SARIMA Mensal", p1), ("ARIMA", p2)), by simp [allPairs], ?_⟩
      simp [hlen, hsao]
  · intro p1 p2 h1 h2 hlen hsao
    rcases ha : r.previsoes.lookup "arima" with _ | pa
    · have hpc : prevs_comparar r = [("SARIMA Mensal", p1), ("Media Movel", p2)] := by
        unfold prevs_comparar
        rw [h1, ha, h2]
        rfl
      unfold pares_identicos
      rw [hpc, if_pos (by norm_num)]
      apply List.mem_filterMap.mpr
      refine ⟨(("SARIMA Mensal", p1), ("Media Movel", p2)), by simp [allPairs], ?_⟩
      simp [hlen, hsao]
    · have hpc : prevs_comparar r
          = [("SARIMA Mensal", p1), ("ARIMA", pa), ("Media Movel", p2)] := by
        unfold prevs_comparar
        rw [h1, ha, h2]
        rfl
      unfold pares_identicos
      rw [hpc, if_pos (by norm_num)]
      apply List.mem_filterMap.mpr
      refine ⟨(("SARIMA Mensal", p1), ("Media Movel", p2)), by simp [allPairs], ?_⟩
      simp [hlen, hsao]
  · intro p1 p2 h1 h2 hlen hsao
    rcases hm : r.previsoes.lookup "sarima_mensal" with _ | pm
    · have hpc : prevs_comparar r = [("ARIMA", p1), ("Media Movel", p2)] := by
        unfold prevs_comparar
        rw [hm, h1, h2]
        rfl
      unfold pares_identicos
      rw [hpc, if_pos (by norm_num)]
      apply List.mem_filterMap.mpr
      refine ⟨(("ARIMA", p1), ("Media Movel", p2)), by simp [allPairs], ?_⟩
      simp [hlen, hsao]
    · have hpc : prevs_comparar r
          = [("SARIMA Mensal", pm), ("ARIMA", p1), ("Media Movel", p2)] := by
        unfold prevs_comparar
        rw [hm, h1, h2]
        rfl
      unfold pares_identicos
      rw [hpc, if_pos (by norm_num)]
      apply List.mem_filterMap.mpr
      refine ⟨(("ARIMA", p1), ("Media Movel", p2)), by simp [allPairs], ?_⟩
      simp [hlen, hsao]

/-- The concrete series for the C6 counterexample: training prefix
constantly 2, test segment [5, 5]. -/
def serie_c6 : List ℚ := [2, 2, 2, 2, 2, 2, 2, 2, 5, 5]

/-- Oracle for the C6 counterexample: only the exponential-smoothing fit
succeeds and it forecasts the constant 2, exactly the moving-average
forecast. -/
def oracle_c6 : FitOracle := ⟨none, none, none, some (fun _ => 2)⟩

/-- Counterexample to claim C6: the moving-average and exponential-smoothing
models both produced the identical equal-length forecast [2, 2], yet the
cross-check reports no pair at all — the exponential-smoothing forecast is
never pooled into the comparison, so this identical pair goes unchecked. -/
theorem c6_counterexample :
    ("media_movel", [(2 : ℚ), 2])
      ∈ (comparar_modelos serie_c6 "SKU" oracle_c6 30 (4/5)).previsoes ∧
    ("exponencial", [(2 : ℚ), 2])
      ∈ (comparar_modelos serie_c6 "SKU" oracle_c6 30 (4/5)).previsoes ∧
    sao_identicas [(2 : ℚ), 2] [(2 : ℚ), 2] = true ∧
    pares_identicos (comparar_modelos serie_c6 "SKU" oracle_c6 30 (4/5)) = [] := by
  have hn : (⌊((serie_c6.length : ℚ)) * (4 / 5)⌋).toNat = 8 := by
    norm_num [serie_c6]
    rfl
  have hsplit : dividir_serie_temporal serie_c6 (4 / 5)
      = ([2, 2, 2, 2, 2, 2, 2, 2], [5, 5]) := by
    simp only [dividir_serie_temporal, hn]
    rfl
  have hgate : ¬ (730 ≤ (dividir_serie_temporal serie_c6 (4/5)).1.length) := by
    rw [hsplit]
    norm_num
  have hnprev : n_previsao_calc serie_c6 30 (4/5) = 2 := by
    simp only [n_previsao_calc, hsplit]
    rfl
  have hexp : prever_oracle (fun _ => (2 : ℚ)) 2 = [2, 2] := by
    simp only [prever_oracle, clamp0]
    norm_num [List.range_succ]
  have hmedia7 : modelo_media_movel (dividir_serie_temporal serie_c6 (4/5)).1 7
      = [2, 2, 2, 2, 2, 2, 2] := by
    rw [hsplit]
    rfl
  have hmediaval : media [2, 2, 2, 2, 2, 2, (2 : ℚ)] = 2 := by
    norm_num [media]
  have hmm : prever_media_movel (modelo_media_movel (dividir_serie_temporal serie_c6 (4/5)).1 7)
      (n_previsao_calc serie_c6 30 (4/5)) = [2, 2] := by
    rw [hmedia7, hnprev]
    simp [prever_media_movel, hmediaval, List.replicate]
  have hentradas : entradas_comparacao serie_c6 oracle_c6 30 (4/5)
      = [("media_movel", "Media Movel (7 dias)", [2, 2]),
         ("exponencial", "Suavizacao Exponencial", [2, 2])] := by
    simp only [entradas_comparacao, oracle_c6, hgate, if_false, entrada_oracle_none,
      entrada_oracle_some, List.nil_append, hnprev, hexp]
    rw [List.singleton_append]
    rw [show prever_media_movel (modelo_media_movel
      (dividir_serie_temporal serie_c6 (4 / 5)).1 7) 2 = [2, 2] from ?_]
    · rw [hmedia7]
      simp [prever_media_movel, hmediaval, List.replicate]
  have hprevisoes : (comparar_modelos serie_c6 "SKU" oracle_c6 30 (4/5)).previsoes
      = [("media_movel", [2, 2]), ("exponencial", [2, 2])] := by
    show (entradas_comparacao serie_c6 oracle_c6 30 (4/5)).map (fun e => (e.1, e.2.2))
      = [("media_movel", [2, 2]), ("exponencial", [2, 2])]
    rw [hentradas]
    rfl
  have hpc : prevs_comparar (comparar_modelos serie_c6 "SKU" oracle_c6 30 (4/5))
      = [("Media Movel", [2, 2])] := by
    unfold prevs_comparar
    rw [hprevisoes]
    rfl
  refine ⟨?_, ?_, ?_, ?_⟩
  · rw [hprevisoes]
    simp
  · rw [hprevisoes]
    simp
  · norm_num [sao_identicas, List.zip, abs]
  · unfold pares_identicos
    rw [hpc]
    rfl

/-- Witness oracle for the amended C6: monthly SARIMA and plain ARIMA both
succeed with the identical constant forecast 3. -/
def oracle_c6w : FitOracle := ⟨none, some (fun _ => 3), some (fun _ => 3), none⟩

/-- Witness for the amended C6: with identical in-pool forecasts the pair
(SARIMA Mensal, ARIMA) is reported by the cross-check. -/
theorem c6_amended_crosscheck_scope_witness :
    ("SARIMA Mensal", "ARIMA")
      ∈ pares_identicos (comparar_modelos serie_c6 "SKU" oracle_c6w 30 (4/5)) := by
  have hn : (⌊((serie_c6.length : ℚ)) * (4 / 5)⌋).toNat = 8 := by
    norm_num [serie_c6]
    rfl
  have hsplit : dividir_serie_temporal serie_c6 (4 / 5)
      = ([2, 2, 2, 2, 2, 2, 2, 2], [5, 5]) := by
    simp only [dividir_serie_temporal, hn]
    rfl
  have hgate : ¬ (730 ≤ (dividir_serie_temporal serie_c6 (4/5)).1.length) := by
    rw [hsplit]
    norm_num
  have hnprev : n_previsao_calc serie_c6 30 (4/5) = 2 := by
    simp only [n_previsao_calc, hsplit]
    rfl
  have hf3 : prever_oracle (fun _ => (3 : ℚ)) 2 = [3, 3] := by
    simp only [prever_oracle, clamp0]
    norm_num [List.range_succ]
  have hmedia7 : modelo_media_movel (dividir_serie_temporal serie_c6 (4/5)).1 7
      = [2, 2, 2, 2, 2, 2, 2] := by
    rw [hsplit]
    rfl
  have hmediaval : media [2, 2, 2, 2, 2, 2, (2 : ℚ)] = 2 := by
    norm_num [media]
  have hentradas : entradas_comparacao serie_c6 oracle_c6w 30 (4/5)
      = [("sarima_mensal", "SARIMA Mensal (m=30)", [3, 3]),
         ("arima", "ARIMA Simples", [3, 3]),
         ("media_movel", "Media Movel (7 dias)", [2, 2])] := by
    simp only [entradas_comparacao, oracle_c6w, hgate, if_false, entrada_oracle_none,
      entrada_oracle_some, List.nil_append, List.append_nil, hnprev, hf3]
    rw [show prever_media_movel (modelo_media_movel
      (dividir_serie_temporal serie_c6 (4 / 5)).1 7) 2 = [2, 2] from ?_]
    · rfl
    · rw [hmedia7]
      simp [prever_media_movel, hmediaval, List.replicate]
  have hprevisoes : (comparar_modelos serie_c6 "SKU" oracle_c6w 30 (4/5)).previsoes
      = [("sarima_mensal", [3, 3]), ("arima", [3, 3]), ("media_movel", [2, 2])] := by
    show (entradas_comparacao serie_c6 oracle_c6w 30 (4/5)).map (fun e => (e.1, e.2.2))
      = [("sarima_mensal", [3, 3]), ("arima", [3, 3]), ("media_movel", [2, 2])]
    rw [hentradas]
    rfl
  have hl1 : (comparar_modelos serie_c6 "SKU" oracle_c6w 30 (4/5)).previsoes.lookup
      "sarima_mensal" = some [3, 3] := by
    rw [hprevisoes]
    rfl
  have hl2 : (comparar_modelos serie_c6 "SKU" oracle_c6w 30 (4/5)).previsoes.lookup
      "arima" = some [3, 3] := by
    rw [hprevisoes]
    rfl
  have hsao : sao_identicas [(3 : ℚ), 3] [(3 : ℚ), 3] = true := by
    norm_num [sao_identicas, List.zip, abs]
  exact (c6_amended_crosscheck_scope
    (comparar_modelos serie_c6 "SKU" oracle_c6w 30 (4/5))).2.1 [3, 3] [3, 3] hl1 hl2 rfl hsao

/- ===== C1: CandidatePoolSelector ===== -/

theorem mem_elegiveis {pool : List PoolEntry} {p : PoolEntry × ℚ} :
    p ∈ elegiveis pool ↔ p.1 ∈ pool ∧ sobrevive p.1 = true ∧ p.2 = best_mae p.1 := by
  unfold elegiveis
  constructor
  · intro hp
    rcases List.mem_map.mp hp with ⟨r, hr, rfl⟩
    rcases List.mem_filter.mp hr with ⟨h1, h2⟩
    exact ⟨h1, h2, rfl⟩
  · rintro ⟨h1, h2, h3⟩
    apply List.mem_map.mpr
    exact ⟨p.1, List.mem_filter.mpr ⟨h1, h2⟩, Prod.ext rfl h3.symm⟩

theorem sobrevive_spec {r : PoolEntry} (h : sobrevive r = true) :
    r.teste_constante = false ∧ r.metricas_mae ≠ [] ∧ maes_validos r ≠ [] ∧
    (1 : ℚ) / 100 ≤ diff_mae r := by
  unfold sobrevive at h
  simp only [Bool.and_eq_true, Bool.not_eq_true', decide_eq_true_eq,
    List.isEmpty_eq_false_iff_exists_mem] at h
  refine ⟨h.1.1.1, ?_, ?_, h.2⟩
  · rcases h.1.1.2 with ⟨x, hx⟩
    exact List.ne_nil_of_mem hx
  · rcases h.1.2 with ⟨x, hx⟩
    exact List.ne_nil_of_mem hx

/-- Claim C1: for every candidate pool and requested size, select_top
returns at most n_best entries, exactly min(n_best, number of survivors) of
them; every returned entry comes from the pool and survives the filters (in
particular its teste_constante flag is false and its best-to-worst MAE
spread is not below the 0.01 epsilon); the output is ordered ascending by
best (minimum) MAE; and every returned entry has best MAE at most that of
any surviving entry left out — the returned entries are exactly the
surviving entries of smallest best MAE. -/
theorem c1_select_top (pool : List PoolEntry) (n_best : ℕ) :
    (select_top pool n_best).length ≤ n_best ∧
    (select_top pool n_best).length = min n_best (pool.filter sobrevive).length ∧
    (∀ r ∈ select_top pool n_best, r ∈ pool ∧ sobrevive r = true) ∧
    (∀ r ∈ select_top pool n_best, r.teste_constante = false) ∧
    (∀ r ∈ select_top pool n_best, ¬ (diff_mae r < 1 / 100)) ∧
    List.Sorted (fun a b => best_mae a ≤ best_mae b) (select_top pool n_best) ∧
    (∀ r ∈ select_top pool n_best, ∀ s ∈ pool, sobrevive s = true →
      s ∉ select_top pool n_best → best_mae r ≤ best_mae s) := by
  have hperm := List.perm_insertionSort keyLe (elegiveis pool)
  have hsorted : List.Sorted keyLe (List.insertionSort keyLe (elegiveis pool)) :=
    List.sorted_insertionSort keyLe (elegiveis pool)
  have hL : (List.insertionSort keyLe (elegiveis pool)).length
      = (pool.filter sobrevive).length := by
    rw [hperm.length_eq]
    unfold elegiveis
    rw [List.length_map]
  have hinv : ∀ p ∈ List.insertionSort keyLe (elegiveis pool),
      p.1 ∈ pool ∧ sobrevive p.1 = true ∧ p.2 = best_mae p.1 := by
    intro p hp
    exact mem_elegiveis.mp (hperm.mem_iff.mp hp)
  have hlen : (select_top pool n_best).length
      = min n_best (pool.filter sobrevive).length := by
    unfold select_top
    rw [List.length_map, List.length_take, hL]
  have hsel : ∀ r ∈ select_top pool n_best,
      ∃ p ∈ (List.insertionSort keyLe (elegiveis pool)).take n_best, p.1 = r := by
    intro r hr
    unfold select_top at hr
    rcases List.mem_map.mp hr with ⟨p, hp, rfl⟩
    exact ⟨p, hp, rfl⟩
  have hmempool : ∀ r ∈ select_top pool n_best, r ∈ pool ∧ sobrevive r = true := by
    intro r hr
    rcases hsel r hr with ⟨p, hp, rfl⟩
    have hp2 : p ∈ List.insertionSort keyLe (elegiveis pool) :=
      (List.take_sublist _ _).subset hp
    exact ⟨(hinv p hp2).1, (hinv p hp2).2.1⟩
  refine ⟨?_, hlen, hmempool, ?_, ?_, ?_, ?_⟩
  · rw [hlen]
    exact min_le_left _ _
  · intro r hr
    exact (sobrevive_spec (hmempool r hr).2).1
  · intro r hr
    have hd := (sobrevive_spec (hmempool r hr).2).2.2.2
    exact not_lt.mpr hd
  · have htake : List.Sorted keyLe ((List.insertionSort keyLe (elegiveis pool)).take n_best) :=
      hsorted.sublist (List.take_sublist _ _)
    unfold select_top
    rw [List.Sorted, List.pairwise_map]
    refine htake.imp_of_mem ?_
    intro a b ha hb hab
    have ha2 : a ∈ List.insertionSort keyLe (elegiveis pool) :=
      (List.take_sublist _ _).subset ha
    have hb2 : b ∈ List.insertionSort keyLe (elegiveis pool) :=
      (List.take_sublist _ _).subset hb
    have h1 := (hinv a ha2).2.2
    have h2 := (hinv b hb2).2.2
    rw [← h1, ← h2]
    exact hab
  · intro r hr s hs hsurv hnot
    rcases hsel r hr with ⟨p, hp, rfl⟩
    have hp2 : p ∈ List.insertionSort keyLe (elegiveis pool) :=
      (List.take_sublist _ _).subset hp
    have hsmem : (s, best_mae s) ∈ List.insertionSort keyLe (elegiveis pool) :=
      hperm.mem_iff.mpr (mem_elegiveis.mpr ⟨hs, hsurv, rfl⟩)
    have hsdrop : (s, best_mae s) ∈ (List.insertionSort keyLe (elegiveis pool)).drop n_best := by
      have hsplit2 := hsmem
      rw [← List.take_append_drop n_best (List.insertionSort keyLe (elegiveis pool))] at hsplit2
      rcases List.mem_append.mp hsplit2 with h | h
      · exfalso
        apply hnot
        unfold select_top
        exact List.mem_map.mpr ⟨(s, best_mae s), h, rfl⟩
      · exact h
    have hpw := hsorted
    rw [List.Sorted, ← List.take_append_drop n_best
      (List.insertionSort keyLe (elegiveis pool)), List.pairwise_append] at hpw
    have hkey : keyLe p (s, best_mae s) := hpw.2.2 p hp (s, best_mae s) hsdrop
    have h1 := (hinv p hp2).2.2
    unfold keyLe at hkey
    rw [h1] at hkey
    exact hkey

/-- Concrete pool entries for the C1 witness: one constant-test entry, one
with best MAE 5 and one with best MAE 2. -/
def entry_c1a : PoolEntry := ⟨1, true, [some 1, some 2]⟩

def entry_c1b : PoolEntry := ⟨2, false, [some 5, some 6]⟩

def entry_c1c : PoolEntry := ⟨3, false, [some 2, some 4]⟩

def pool_c1 : List PoolEntry := [entry_c1a, entry_c1b, entry_c1c]

/-- Witness for C1 on the concrete pool: the selection is [entry_c1c,
entry_c1b] (ascending best MAE, constant-test entry dropped), its length is
at most 10 and the selected entry_c1c has teste_constante = false, by
instantiating the claim theorem. -/
theorem c1_select_top_witness :
    select_top pool_c1 10 = [entry_c1c, entry_c1b] ∧
    (select_top pool_c1 10).length ≤ 10 ∧
    entry_c1c.teste_constante = false := by
  have hsel : select_top pool_c1 10 = [entry_c1c, entry_c1b] := by
    norm_num [select_top, elegiveis, pool_c1, sobrevive, maes_validos, best_mae,
      diff_mae, listMin, listMax, List.insertionSort, List.orderedInsert, keyLe,
      entry_c1a, entry_c1b, entry_c1c, List.filter, List.filterMap_cons, id_eq,
      List.isEmpty, List.foldl, min_def, max_def]
  have h := c1_select_top pool_c1 10
  exact ⟨hsel, h.1, h.2.2.2.1 entry_c1c (by rw [hsel]; simp)⟩

/- ===== C8: ElencacaoRanker ===== -/

/-- The 3-SKU scenario of the claim: profitability [50, NaN, 20],
urgency [2, 5, NaN], GP [800, 200, 600]. -/
def linhas3 : List SkuMetricas :=
  [⟨1, some 50, some 2, some 800⟩, ⟨2, none, some 5, some 200⟩, ⟨3, some 20, none, some 600⟩]

/-- Evaluating the ranking pipeline on the scenario: the NaN-urgency row
is dropped by the NaN-score filter, leaving two ranked rows. -/
theorem gerar_elencacao_linhas3_eq :
    gerar_elencacao_completa linhas3 = [((1, 27 / 50), 1), ((2, 11 / 100), 2)] := by
  norm_num [gerar_elencacao_completa, linhas3, score_row, calcular_score_elencacao,
    opt_pos, List.insertionSort, List.orderedInsert, scoreGe, List.filterMap_cons,
    min_def, List.range_succ, List.zip, List.filterMap_nil]

/-- Counterexample to claim C8: on the stated 3-SKU scenario the ranked
output has 2 rows, not 3 — the SKU with NaN urgency is removed from the
table (its score is NaN and the dropna filter excludes it), so not every
SKU with a NaN input survives with a zero contribution. -/
theorem c8_counterexample :
    (gerar_elencacao_completa linhas3).length = 2 ∧
    (∀ e ∈ gerar_elencacao_completa linhas3, e.1.1 ≠ 3) := by
  refine ⟨by rw [gerar_elencacao_linhas3_eq]; rfl, ?_⟩
  rw [gerar_elencacao_linhas3_eq]
  intro e he
  rcases List.mem_cons.mp he with rfl | he2
  · norm_num
  · rcases List.mem_singleton.mp he2 with rfl
    norm_num

/-- Claim C8 as amended: a missing (NaN) profitability contributes exactly
as a zero profitability while the row remains rankable; but a row whose
urgency or GP input is NaN receives a NaN score and is dropped from the
ranked output before ranking; ranks are contiguous and 1-based over the
surviving rows, sorted descending by score; on the stated 3-SKU scenario
the output is the 2-row table [(SKU 1, score 27/50, rank 1),
(SKU 2, score 11/100, rank 2)]. -/
theorem c8_amended_elencacao (u g : Option ℚ) (linhas : List SkuMetricas) :
    calcular_score_elencacao none u g = calcular_score_elencacao (some 0) u g ∧
    (∀ r ∈ linhas, r.nivel_urgencia = none ∨ r.giro_futuro_previsto = none →
      score_row r = none) ∧
    (gerar_elencacao_completa linhas).map (fun e => e.2)
      = (List.range (gerar_elencacao_completa linhas).length).map (fun i => i + 1) ∧
    gerar_elencacao_completa linhas3 = [((1, 27 / 50), 1), ((2, 11 / 100), 2)] := by
  refine ⟨?_, ?_, ?_, gerar_elencacao_linhas3_eq⟩
  · unfold calcular_score_elencacao
    norm_num [opt_pos]
  · intro r _ hror
    unfold score_row
    rcases hror with h | h
    · rw [h]
    · rw [h]
      cases hu : r.nivel_urgencia <;> rfl
  · unfold gerar_elencacao_completa
    have hlen2 : ((List.range (List.insertionSort scoreGe
        (linhas.filterMap (fun r => (score_row r).map (fun s => (r.sku, s))))).length).map
          (fun i => i + 1)).length
        = (List.insertionSort scoreGe
            (linhas.filterMap (fun r => (score_row r).map (fun s => (r.sku, s))))).length := by
      rw [List.length_map, List.length_range]
    rw [List.map_snd_zip _ _ (le_of_eq hlen2)]
    have hlz : ((List.insertionSort scoreGe
        (linhas.filterMap (fun r => (score_row r).map (fun s => (r.sku, s))))).zip
          ((List.range (List.insertionSort scoreGe
            (linhas.filterMap (fun r => (score_row r).map (fun s => (r.sku, s))))).length).map
              (fun i => i + 1))).length
        = (List.insertionSort scoreGe
            (linhas.filterMap (fun r => (score_row r).map (fun s => (r.sku, s))))).length := by
      rw [List.length_zip, hlen2, min_self]
    rw [hlz]

/-- Witness for the amended C8: NaN profitability scores as zero
profitability at concrete inputs, the NaN-urgency scenario row gets a NaN
score, and the scenario table is the concrete 2-row ranking. -/
theorem c8_amended_elencacao_witness :
    calcular_score_elencacao none (some 2) (some 800)
      = calcular_score_elencacao (some 0) (some 2) (some 800) ∧
    score_row ⟨3, some 20, none, some 600⟩ = none ∧
    gerar_elencacao_completa linhas3 = [((1, 27 / 50), 1), ((2, 11 / 100), 2)] := by
  have h := c8_amended_elencacao (some 2) (some 800) linhas3
  refine ⟨h.1, ?_, h.2.2.2⟩
  exact h.2.1 ⟨3, some 20, none, some 600⟩ (by simp [linhas3]) (Or.inl rfl)

/- ===== C9: SeriesPreparer ===== -/

theorem mem_dedup_keep_last : ∀ (l : List RegistroEstoque) (x : RegistroEstoque),
    x ∈ dedup_keep_last l → x ∈ l := by
  intro l
  induction l with
  | nil =>
    intro x hx
    simp [dedup_keep_last] at hx
  | cons a as ih =>
    intro x hx
    unfold dedup_keep_last at hx
    by_cases hdup : as.any (fun r => r.data == a.data)
    · rw [if_pos hdup] at hx
      exact List.mem_cons_of_mem a (ih x hx)
    · rw [if_neg hdup] at hx
      rcases List.mem_cons.mp hx with rfl | hx2
      · exact List.mem_cons_self _ _
      · exact List.mem_cons_of_mem a (ih x hx2)

theorem mem_observacoes_sku {df : List RegistroEstoque} {sku : ℕ} {r : RegistroEstoque}
    (hr : r ∈ observacoes_sku df sku) : r ∈ df ∧ r.sku = sku := by
  unfold observacoes_sku at hr
  have h1 := mem_dedup_keep_last _ _ hr
  have h2 := (List.perm_insertionSort dataLe _).mem_iff.mp h1
  have h3 := List.mem_filter.mp h2
  exact ⟨h3.1, by simpa using h3.2⟩

theorem foldl_min_nat_mem : ∀ (xs : List ℕ) (x : ℕ), xs.foldl min x ∈ x :: xs := by
  intro xs
  induction xs with
  | nil =>
    intro x
    simp
  | cons y ys ih =>
    intro x
    rw [List.foldl_cons]
    rcases List.mem_cons.mp (ih (min x y)) with h1 | h1
    · rcases min_choice x y with h2 | h2
      · rw [h1, h2]
        simp
      · rw [h1, h2]
        simp
    · simp [h1]

theorem listMinNat_mem (l : List ℕ) (hne : l ≠ []) : listMinNat l ∈ l := by
  cases l with
  | nil => exact absurd rfl hne
  | cons x xs => exact foldl_min_nat_mem xs x

theorem foldl_max_seed_le : ∀ (ys : List ℕ) (x : ℕ), x ≤ ys.foldl max x := by
  intro ys
  induction ys with
  | nil =>
    intro x
    simp
  | cons y ys ih =>
    intro x
    rw [List.foldl_cons]
    exact le_trans (le_max_left x y) (ih (max x y))

theorem foldl_max_nat_le : ∀ (xs : List ℕ) (x a : ℕ), a ∈ x :: xs → a ≤ xs.foldl max x := by
  intro xs
  induction xs with
  | nil =>
    intro x a ha
    rcases List.mem_cons.mp ha with rfl | ha2
    · simp
    · simp at ha2
  | cons y ys ih =>
    intro x a ha
    rw [List.foldl_cons]
    rcases List.mem_cons.mp ha with rfl | ha2
    · exact le_trans (le_max_left _ y) (foldl_max_seed_le ys _)
    · rcases List.mem_cons.mp ha2 with rfl | ha3
      · exact le_trans (le_max_right x _) (foldl_max_seed_le ys _)
      · exact ih (max x y) a (List.mem_cons_of_mem _ ha3)

theorem le_listMaxNat (l : List ℕ) (a : ℕ) (ha : a ∈ l) : a ≤ listMaxNat l := by
  cases l with
  | nil => simp at ha
  | cons x xs => exact foldl_max_nat_le xs x a ha

theorem listMinNat_le_listMaxNat (l : List ℕ) (hne : l ≠ []) :
    listMinNat l ≤ listMaxNat l :=
  le_listMaxNat l (listMinNat l) (listMinNat_mem l hne)

theorem mem_dias_grade (l : List RegistroEstoque) (hne : l ≠ []) (d : ℕ) :
    d ∈ dias_grade l ↔
      (listMinNat (l.map (fun r => r.data)) ≤ d ∧
        d ≤ listMaxNat (l.map (fun r => r.data))) := by
  have hmmax : listMinNat (l.map (fun r => r.data)) ≤ listMaxNat (l.map (fun r => r.data)) := by
    apply listMinNat_le_listMaxNat
    intro hmap
    exact hne (List.map_eq_nil_iff.mp hmap)
  cases l with
  | nil => exact absurd rfl hne
  | cons x xs =>
    unfold dias_grade
    simp only [List.mem_map, List.mem_range]
    constructor
    · rintro ⟨i, hi, rfl⟩
      omega
    · rintro ⟨h1, h2⟩
      exact ⟨d - listMinNat ((x :: xs).map (fun r => r.data)), by omega, by omega⟩

theorem map_fst_serie_preparada (grade : List ℕ) (val : ℕ → Option ℚ) :
    ((grade.map (fun d => (d, val d))).filterMap
      (fun e => e.2.map (fun v => (e.1, v)))).map Prod.fst
      = grade.filter (fun d => (val d).isSome) := by
  induction grade with
  | nil => simp
  | cons d ds ih =>
    simp only [List.filterMap_map, Function.comp_def] at ih
    cases hv : val d <;>
      simp [hv, ih, List.filterMap_map, Function.comp_def]

theorem valor_ffill_isSome (df : List RegistroEstoque) (sku : ℕ)
    (hall : ∀ r ∈ df, r.sku = sku → r.estoque_atual.isSome) (d : ℕ)
    (hne : observacoes_sku df sku ≠ [])
    (hd : listMinNat ((observacoes_sku df sku).map (fun r => r.data)) ≤ d) :
    (valor_ffill (observacoes_sku df sku) d).isSome = true := by
  have hmin : listMinNat ((observacoes_sku df sku).map (fun r => r.data))
      ∈ (observacoes_sku df sku).map (fun r => r.data) := by
    apply listMinNat_mem
    intro hmap
    exact hne (List.map_eq_nil_iff.mp hmap)
  rcases List.mem_map.mp hmin with ⟨rmin, hrmin, hdata⟩
  have hfil : rmin ∈ (observacoes_sku df sku).filter (fun r => r.data ≤ d) := by
    apply List.mem_filter.mpr
    exact ⟨hrmin, by simpa using hdata ▸ hd⟩
  have hfne : (observacoes_sku df sku).filter (fun r => r.data ≤ d) ≠ [] :=
    List.ne_nil_of_mem hfil
  rcases Option.isSome_iff_exists.mp (List.getLast?_isSome.mpr hfne) with ⟨rlast, hlast⟩
  have hrlast : rlast ∈ (observacoes_sku df sku).filter (fun r => r.data ≤ d) :=
    List.mem_of_mem_getLast? hlast
  have hmem := mem_observacoes_sku (List.mem_filter.mp hrlast).1
  have hsome := hall rlast hmem.1 hmem.2
  unfold valor_ffill
  rw [hlast]
  exact hsome

/-- Claim C9 as amended: preparar_serie_temporal resamples the deduplicated
per-product observations to the contiguous daily grid from the first to the
last observation date with forward fill, and days whose value is still
missing are REMOVED from the prepared series (dropna), not kept as zero;
in particular, when every raw stock value of the product is present the
prepared series covers exactly every day of that grid. -/
theorem c9_amended_preparer (df : List RegistroEstoque) (sku : ℕ)
    (hall : ∀ r ∈ df, r.sku = sku → r.estoque_atual.isSome) :
    (preparar_serie_temporal df sku).map Prod.fst = dias_grade (observacoes_sku df sku) ∧
    (∀ d : ℕ, d ∈ (preparar_serie_temporal df sku).map Prod.fst ↔
      (observacoes_sku df sku ≠ [] ∧
        listMinNat ((observacoes_sku df sku).map (fun r => r.data)) ≤ d ∧
        d ≤ listMaxNat ((observacoes_sku df sku).map (fun r => r.data)))) := by
  have hcov : (preparar_serie_temporal df sku).map Prod.fst
      = dias_grade (observacoes_sku df sku) := by
    unfold preparar_serie_temporal
    rw [map_fst_serie_preparada]
    apply List.filter_eq_self.mpr
    intro d hd
    by_cases hne : observacoes_sku df sku = []
    · rw [hne] at hd
      simp [dias_grade] at hd
    · have hdmin := ((mem_dias_grade _ hne d).mp hd).1
      exact valor_ffill_isSome df sku hall d hne hdmin
  refine ⟨hcov, ?_⟩
  intro d
  rw [hcov]
  by_cases hne : observacoes_sku df sku = []
  · rw [hne]
    simp [dias_grade]
  · rw [mem_dias_grade _ hne d]
    constructor
    · intro h
      exact ⟨hne, h⟩
    · intro h
      exact h.2

/-- Raw rows of the C9 counterexample: the first observation of product 1
(day 0) has a missing (NaN) stock value, the next known value appears on
day 3. -/
def registros_c9 : List RegistroEstoque := [⟨1, 0, none⟩, ⟨1, 3, some 5⟩]

/-- Counterexample to claim C9: the still-missing leading days 0, 1 and 2
are REMOVED from the prepared series (dropna), not kept with value 0 — the
prepared series is [(3, 5)] and does not cover day 0, and in particular
does not contain the pair (0, 0) that a zero-fill would produce. -/
theorem c9_counterexample :
    preparar_serie_temporal registros_c9 1 = [(3, 5)] ∧
    (0, (0 : ℚ)) ∉ preparar_serie_temporal registros_c9 1 ∧
    (∀ e ∈ preparar_serie_temporal registros_c9 1, e.1 ≠ 0) := by
  refine ⟨by decide, by decide, by decide⟩

/-- Raw rows for the C9 witness: all stock values known, observed on days
2 and 5. -/
def registros_c9w : List RegistroEstoque := [⟨1, 2, some 3⟩, ⟨1, 5, some 7⟩]

/-- Witness for the amended C9: with every raw value present, the prepared
series covers exactly the daily grid from day 2 to day 5; in particular the
gap day 4 is covered (with the forward-filled value). -/
theorem c9_amended_preparer_witness :
    (preparar_serie_temporal registros_c9w 1).map Prod.fst
      = dias_grade (observacoes_sku registros_c9w 1) ∧
    4 ∈ (preparar_serie_temporal registros_c9w 1).map Prod.fst := by
  have h := c9_amended_preparer registros_c9w 1 (by decide)
  exact ⟨h.1, (h.2 4).mpr (by decide)⟩

/-- Witness for C10: even with every external fit failing, the comparison
result for the series [1, 2] records the moving-average model. -/
theorem c10_media_movel_unconditional_witness :
    "media_movel" ∈ (comparar_modelos [(1 : ℚ), 2] "S" oracle_none 30 (4/5)).modelos :=
  (c10_media_movel_unconditional [(1 : ℚ), 2] "S" oracle_none 30 (4/5)).1
